import Mathlib

/-!
Verification of the bookstore-api-course repository against its specification.

The Python sources are shallowly embedded: ORM rows become Lean structures,
the database becomes an explicit `Store` value, request handlers become pure
functions from the request data, the authenticated caller and the store to a
result paired with the post-state.  HTTP errors are `Except (Nat × String)`
values carrying the status code and the detail message used by the source.
SQL float columns are modelled as exact rationals.
-/

namespace Bookstore

/-- Row of the `users` table (src/bookstore/models.py, class User).
`hashed_password` is the stored hash string. -/
structure User where
  id : Nat
  email : String
  username : String
  full_name : Option String := none
  hashed_password : String := ""
  is_active : Bool := true
  is_superuser : Bool := false
deriving DecidableEq

/-- Row of the `authors` table (src/bookstore/models.py, class Author). -/
structure Author where
  id : Nat
  name : String
  biography : Option String := none
  nationality : Option String := none
deriving DecidableEq

/-- Row of the `genres` table (src/bookstore/models.py, class Genre). -/
structure Genre where
  id : Nat
  name : String
  description : Option String := none
deriving DecidableEq

/-- Row of the `books` table (src/bookstore/models.py, class Book), together
with its many-to-many association rows: `author_ids` and `genre_ids` model the
`book_authors` and `book_genres` join tables for this book.  `created_at` and
`publication_date` are abstract instants (Nat). -/
structure Book where
  id : Nat
  title : String
  isbn : Option String := none
  description : Option String := none
  publication_date : Option Nat := none
  page_count : Option Nat := none
  language : String := "ru"
  price : Option ℚ := none
  is_available : Bool := true
  cover_image_url : Option String := none
  created_at : Nat := 0
  author_ids : List Nat := []
  genre_ids : List Nat := []
deriving DecidableEq

/-- Row of the `reviews` table (src/bookstore/models.py, class Review). -/
structure Review where
  id : Nat
  user_id : Nat
  book_id : Nat
  rating : Nat
  title : Option String := none
  content : Option String := none
deriving DecidableEq

/-- The relational store: one list per table. -/
structure Store where
  users : List User := []
  authors : List Author := []
  genres : List Genre := []
  books : List Book := []
  reviews : List Review := []
deriving DecidableEq

/-- The empty database. -/
def emptyStore : Store := {}

/-- Next autoincrement id for the books table. -/
def nextBookId (db : Store) : Nat :=
  db.books.foldr (fun b m => max (b.id + 1) m) 1

/-- Next autoincrement id for the reviews table. -/
def nextReviewId (db : Store) : Nat :=
  db.reviews.foldr (fun r m => max (r.id + 1) m) 1

/-- Python truthiness of an optional string (`if x:`): false for absent and
for the empty string. -/
def pyTruthyStr : Option String → Bool
  | none => false
  | some s => s ≠ ""

/-- Python truthiness of an optional integer (`if x:`): false for absent and
for zero. -/
def pyTruthyInt : Option Int → Bool
  | none => false
  | some v => v ≠ 0

/-- Permission predicate from src/bookstore/auth.py, `check_user_permissions`:
superusers may access anyone, others only themselves. -/
def check_user_permissions (current_user : User) (target_user_id : Nat) : Bool :=
  current_user.is_superuser || current_user.id == target_user_id

/-- Request body for book creation (src/bookstore/schemas.py, BookCreate). -/
structure BookCreate where
  title : String
  isbn : Option String := none
  description : Option String := none
  publication_date : Option Nat := none
  page_count : Option Nat := none
  language : String := "ru"
  price : Option ℚ := none
  cover_image_url : Option String := none
  is_available : Bool := true
  author_ids : List Nat
  genre_ids : List Nat
deriving DecidableEq

/-- Handler POST /api/v1/books/ (src/bookstore/routers/books.py, `create_book`).
The `get_current_superuser` dependency is the leading guard.  Returns the
response together with the post-state of the store; every error path leaves
the store untouched, mirroring that the source raises before any `db.add`. -/
def create_book (data : BookCreate) (current_user : User) (db : Store) :
    Except (Nat × String) Book × Store :=
  if !current_user.is_superuser then
    (.error (403, "Not enough permissions"), db)
  else
    let authors := db.authors.filter (fun a => data.author_ids.contains a.id)
    if authors.length ≠ data.author_ids.length then
      (.error (400, "One or more authors not found"), db)
    else
      let genres := db.genres.filter (fun g => data.genre_ids.contains g.id)
      if genres.length ≠ data.genre_ids.length then
        (.error (400, "One or more genres not found"), db)
      else
        let book : Book :=
          { id := nextBookId db, title := data.title, isbn := data.isbn,
            description := data.description,
            publication_date := data.publication_date,
            page_count := data.page_count, language := data.language,
            price := data.price, cover_image_url := data.cover_image_url,
            is_available := data.is_available,
            author_ids := data.author_ids, genre_ids := data.genre_ids }
        if pyTruthyStr data.isbn &&
            db.books.any (fun b => b.isbn == data.isbn) then
          (.error (400, "Book with this ISBN already exists"), db)
        else
          (.ok book, { db with books := db.books ++ [book] })

/-- Request body for review creation (src/bookstore/schemas.py, ReviewCreate). -/
structure ReviewCreate where
  rating : Nat
  title : Option String := none
  content : Option String := none
  book_id : Nat
deriving DecidableEq

/-- Handler POST /api/v1/reviews/ (src/bookstore/routers/reviews.py,
`create_review`).  The `get_current_active_user` dependency is the leading
guard. -/
def create_review (data : ReviewCreate) (current_user : User) (db : Store) :
    Except (Nat × String) Review × Store :=
  if !current_user.is_active then
    (.error (400, "Inactive user"), db)
  else if !(db.books.any (fun b => b.id == data.book_id)) then
    (.error (404, "Book not found"), db)
  else if db.reviews.any
      (fun r => r.user_id == current_user.id && r.book_id == data.book_id) then
    (.error (400, "You have already reviewed this book"), db)
  else
    let r : Review :=
      { id := nextReviewId db, user_id := current_user.id,
        book_id := data.book_id, rating := data.rating,
        title := data.title, content := data.content }
    (.ok r, { db with reviews := db.reviews ++ [r] })

/-- Number of review rows held by user `u` for book `b`. -/
def countReviews (db : Store) (u b : Nat) : Nat :=
  (db.reviews.filter (fun r => r.user_id == u && r.book_id == b)).length

/-- Handler GET /api/v1/reviews/ (src/bookstore/routers/reviews.py,
`get_reviews`).  The two query parameters default to `None`; the source
applies each filter under Python truthiness (`if book_id:` / `if user_id:`). -/
def get_reviews (book_id user_id : Option Int) (db : Store) : List Review :=
  let q := db.reviews
  let q := if pyTruthyInt book_id then
      q.filter (fun r => (r.book_id : Int) == book_id.getD 0) else q
  let q := if pyTruthyInt user_id then
      q.filter (fun r => (r.user_id : Int) == user_id.getD 0) else q
  q

/-- Handler GET /api/v1/users/{user_id} (src/bookstore/routers/users.py,
`get_user`).  The `get_current_active_user` dependency is the leading guard;
the permission check precedes the row lookup. -/
def get_user (user_id : Nat) (current_user : User) (db : Store) :
    Except (Nat × String) User :=
  if !current_user.is_active then
    .error (400, "Inactive user")
  else if !check_user_permissions current_user user_id then
    .error (403, "Not enough permissions")
  else
    match db.users.find? (fun u => u.id == user_id) with
    | none => .error (404, "User not found")
    | some u => .ok u

/-- Request body for user update (src/bookstore/schemas.py, UserUpdate); a
`none` field was not supplied (pydantic `exclude_unset`). -/
structure UserUpdate where
  email : Option String := none
  username : Option String := none
  full_name : Option String := none
  is_active : Option Bool := none
deriving DecidableEq

/-- Handler PUT /api/v1/users/{user_id} (src/bookstore/routers/users.py,
`update_user`).  Permission check, then lookup, then conditional uniqueness
re-validation, then field-wise update. -/
def update_user (user_id : Nat) (data : UserUpdate) (current_user : User)
    (db : Store) : Except (Nat × String) User × Store :=
  if !current_user.is_active then
    (.error (400, "Inactive user"), db)
  else if !check_user_permissions current_user user_id then
    (.error (403, "Not enough permissions"), db)
  else
    match db.users.find? (fun u => u.id == user_id) with
    | none => (.error (404, "User not found"), db)
    | some u =>
      if (match data.email with
          | some e => e ≠ u.email && db.users.any (fun v => v.email == e)
          | none => false) then
        (.error (400, "Email already registered"), db)
      else if (match data.username with
          | some n => n ≠ u.username && db.users.any (fun v => v.username == n)
          | none => false) then
        (.error (400, "Username already taken"), db)
      else
        let u' : User :=
          { u with
            email := data.email.getD u.email,
            username := data.username.getD u.username,
            full_name := (match data.full_name with
              | some f => some f
              | none => u.full_name),
            is_active := data.is_active.getD u.is_active }
        (.ok u',
         { db with users := db.users.map (fun v => if v.id == user_id then u' else v) })

/-- Search / filter query parameters of GET /api/v1/books/
(src/bookstore/schemas.py, BookSearchParams). -/
structure BookSearchParams where
  q : Option String := none
  author : Option String := none
  genre : Option String := none
  min_price : Option ℚ := none
  max_price : Option ℚ := none
  language : Option String := none
  available_only : Bool := true
deriving DecidableEq

/-- Sort-field enumeration (src/bookstore/schemas.py, BookSortBy). -/
inductive BookSortBy where
  | title
  | price
  | publication_date
  | created_at
  | rating
deriving DecidableEq

/-- Sort-order enumeration (src/bookstore/schemas.py, SortOrder). -/
inductive SortOrder where
  | asc
  | desc
deriving DecidableEq

/-- Case-insensitive substring test, modelling SQL `ilike '%needle%'`. -/
def strContainsCI (hay needle : String) : Bool :=
  decide (needle.toLower.data <:+: hay.toLower.data)

/-- Average rating of a book over its review rows, `None` when it has no
reviews (the correlated AVG subquery of the rating sort). -/
def avgRating (db : Store) (b : Book) : Option ℚ :=
  let rs := db.reviews.filter (fun r => r.book_id == b.id)
  if rs.length = 0 then none
  else some (((rs.map (fun r => (r.rating : ℚ))).sum) / rs.length)

/-- SQL comparison of nullable numeric keys: NULL rows sort first ascending. -/
def optLe (x y : Option ℚ) : Bool :=
  match x, y with
  | none, _ => true
  | some _, none => false
  | some a, some b => decide (a ≤ b)

/-- Same for nullable date keys. -/
def optNatLe (x y : Option Nat) : Bool :=
  match x, y with
  | none, _ => true
  | some _, none => false
  | some a, some b => a ≤ b

/-- Ascending comparator for each sort field of
src/bookstore/routers/books.py, `get_books_query`. -/
def sortKeyLe (db : Store) : BookSortBy → Book → Book → Bool
  | .title => fun a b => decide (a.title ≤ b.title)
  | .price => fun a b => optLe a.price b.price
  | .publication_date => fun a b => optNatLe a.publication_date b.publication_date
  | .rating => fun a b => optLe (avgRating db a) (avgRating db b)
  | .created_at => fun a b => a.created_at ≤ b.created_at

/-- Ordered insertion for the sort below. -/
def insertLe (le : α → α → Bool) (x : α) : List α → List α
  | [] => [x]
  | y :: ys => if le x y then x :: y :: ys else y :: insertLe le x ys

/-- Stable comparison sort modelling the SQL ORDER BY. -/
def sortByLe (le : α → α → Bool) : List α → List α
  | [] => []
  | x :: xs => insertLe le x (sortByLe le xs)

/-- The filtered-and-sorted result sequence of the book listing
(src/bookstore/routers/books.py, `get_books_query`): filters applied in source
order, then one ORDER BY key with a direction. -/
def get_books_query (db : Store) (params : BookSearchParams)
    (sort_by : BookSortBy) (sort_order : SortOrder) : List Book :=
  let l := db.books
  let l := if pyTruthyStr params.q then
      l.filter (fun b =>
        strContainsCI b.title (params.q.getD "") ||
        (match b.description with
         | some d => strContainsCI d (params.q.getD "")
         | none => false))
    else l
  let l := if pyTruthyStr params.author then
      l.filter (fun b => b.author_ids.any (fun aid =>
        db.authors.any (fun a =>
          a.id == aid && strContainsCI a.name (params.author.getD ""))))
    else l
  let l := if pyTruthyStr params.genre then
      l.filter (fun b => b.genre_ids.any (fun gid =>
        db.genres.any (fun g =>
          g.id == gid && strContainsCI g.name (params.genre.getD ""))))
    else l
  let l := match params.min_price with
    | some m => l.filter (fun b =>
        match b.price with
        | some p => decide (m ≤ p)
        | none => false)
    | none => l
  let l := match params.max_price with
    | some m => l.filter (fun b =>
        match b.price with
        | some p => decide (p ≤ m)
        | none => false)
    | none => l
  let l := if pyTruthyStr params.language then
      l.filter (fun b => b.language == params.language.getD "")
    else l
  let l := if params.available_only then l.filter (fun b => b.is_available) else l
  let le := sortKeyLe db sort_by
  let le := match sort_order with
    | .desc => fun a b => le b a
    | .asc => le
  sortByLe le l

/-- Handler GET /api/v1/books/ (src/bookstore/routers/books.py, `get_books`).
The `Query(ge=1)` / `Query(ge=1, le=100)` bounds reject out-of-range paging
parameters before the handler runs (HTTP 422); inside the handler the result
sequence is sliced with `offset = (page-1)*size` and `limit = size`. -/
def get_books (db : Store) (params : BookSearchParams) (sort_by : BookSortBy)
    (sort_order : SortOrder) (page size : Nat) :
    Except (Nat × String) (List Book) :=
  if page < 1 ∨ size < 1 ∨ 100 < size then
    .error (422, "validation error")
  else
    .ok (((get_books_query db params sort_by sort_order).drop
      ((page - 1) * size)).take size)

/-- Counter state of one `MetricsMiddleware` instance
(src/bookstore/middleware.py, `MetricsMiddleware.__init__`).  Durations are
exact rationals standing for the float millisecond samples. -/
structure Metrics where
  requests_total : Nat := 0
  requests_by_status : List (Nat × Nat) := []
  requests_by_endpoint : List (String × Nat) := []
  response_times : List ℚ := []
deriving DecidableEq

/-- Increment (or create) the counter of key `k` in an association list,
modelling the `if key not in dict: dict[key] = 0; dict[key] += 1` pattern. -/
def bumpAssoc [DecidableEq κ] (k : κ) : List (κ × Nat) → List (κ × Nat)
  | [] => [(k, 1)]
  | (k', n) :: rest =>
    if k = k' then (k', n + 1) :: rest else (k', n) :: bumpAssoc k rest

/-- One pass through `MetricsMiddleware.dispatch` when metrics are enabled
(src/bookstore/middleware.py lines 219-263): increment the total, the
per-status and per-"method path" counters, append the duration and keep the
most recent 1000 samples. -/
def updateMetrics (m : Metrics) (status_code : Nat) (endpoint_key : String)
    (duration_ms : ℚ) : Metrics :=
  let rts := m.response_times ++ [duration_ms]
  { requests_total := m.requests_total + 1,
    requests_by_status := bumpAssoc status_code m.requests_by_status,
    requests_by_endpoint := bumpAssoc endpoint_key m.requests_by_endpoint,
    response_times :=
      if 1000 < rts.length then rts.drop (rts.length - 1000) else rts }

/-- Round a rational to two decimal places (`round(x, 2)`). -/
def roundTo2 (q : ℚ) : ℚ := (round (q * 100) : ℤ) / 100

/-- Smallest element of a nonempty sample list (0 as the unused default). -/
def listMin : List ℚ → ℚ
  | [] => 0
  | x :: xs => xs.foldl min x

/-- Largest element of a nonempty sample list. -/
def listMax : List ℚ → ℚ
  | [] => 0
  | x :: xs => xs.foldl max x

/-- Payload of `MetricsMiddleware.get_metrics`
(src/bookstore/middleware.py lines 265-276): the raw counters, plus computed
mean/min/max response time when any sample is retained. -/
structure MetricsPayload where
  requests_total : Nat
  requests_by_status : List (Nat × Nat)
  requests_by_endpoint : List (String × Nat)
  response_times : List ℚ
  avg_response_time_ms : Option ℚ
  min_response_time_ms : Option ℚ
  max_response_time_ms : Option ℚ
deriving DecidableEq

/-- `MetricsMiddleware.get_metrics`: returns the counters unchanged when no
sample is retained, otherwise also the avg/min/max statistics. -/
def metrics_get_metrics (m : Metrics) : MetricsPayload :=
  if m.response_times = [] then
    ⟨m.requests_total, m.requests_by_status, m.requests_by_endpoint,
     m.response_times, none, none, none⟩
  else
    let rts := m.response_times
    ⟨m.requests_total, m.requests_by_status, m.requests_by_endpoint, rts,
     some (roundTo2 (rts.sum / rts.length)),
     some (roundTo2 (listMin rts)),
     some (roundTo2 (listMax rts))⟩

/-- The application's metrics wiring (src/bookstore/main.py lines 58-60):
`installed` is the `MetricsMiddleware` instance the framework constructs for
`app.add_middleware(MetricsMiddleware)` — the one the request pipeline runs —
while `metrics_middleware` is the separate module-level
`MetricsMiddleware(app)` object that the `/metrics` endpoint reads. -/
structure AppState where
  installed : Metrics := {}
  metrics_middleware : Metrics := {}
  metrics_enabled : Bool := true
deriving DecidableEq

/-- Observable summary of one request that reached the middleware stack. -/
structure RequestEv where
  status_code : Nat
  endpoint_key : String
  duration_ms : ℚ
deriving DecidableEq

/-- One request passing through the application's middleware stack: only the
installed middleware instance dispatches, and only when metrics are enabled
(src/bookstore/middleware.py lines 220-221). -/
def processRequest (s : AppState) (ev : RequestEv) : AppState :=
  if s.metrics_enabled then
    { s with installed :=
        updateMetrics s.installed ev.status_code ev.endpoint_key ev.duration_ms }
  else s

/-- A whole trace of requests through the middleware stack. -/
def processRequests (s : AppState) (evs : List RequestEv) : AppState :=
  evs.foldl processRequest s

/-- Endpoint GET /metrics (src/bookstore/main.py, `get_metrics`): NotFound
when metrics are disabled, otherwise the payload read from the module-level
`metrics_middleware` object. -/
def metricsEndpoint (s : AppState) : Except (Nat × String) MetricsPayload :=
  if !s.metrics_enabled then .error (404, "Metrics disabled")
  else .ok (metrics_get_metrics s.metrics_middleware)

/-- The environment profile (src/bookstore/config.py, validated values of
`ENVIRONMENT`). -/
inductive EnvType where
  | development
  | staging
  | production
  | testing
deriving DecidableEq

/-- Seed author rows of src/bookstore/database.py, `init_db` (ids from the
autoincrement order of an empty table). -/
def seedAuthors : List Author :=
  [{ id := 1, name := "Leo Tolstoy",
     biography := some "Russian writer, philosopher",
     nationality := some "Russia" },
   { id := 2, name := "Fyodor Dostoevsky",
     biography := some "Russian writer, thinker",
     nationality := some "Russia" },
   { id := 3, name := "Alexander Pushkin",
     biography := some "Russian poet, playwright and prose writer",
     nationality := some "Russia" }]

/-- Seed genre rows of `init_db`. -/
def seedGenres : List Genre :=
  [{ id := 1, name := "Classical Literature",
     description := some "Works by classical authors" },
   { id := 2, name := "Novel", description := some "Epic genre" },
   { id := 3, name := "Poetry", description := some "Poetic works" },
   { id := 4, name := "Drama", description := some "Dramatic works" },
   { id := 5, name := "Philosophy", description := some "Philosophical works" }]

/-- Build one development seed book, resolving author and genre names against
the store exactly as the source's per-name `filter(...).first()` lookups. -/
def mkSeedBook (db : Store) (id : Nat) (title bookDescr : String)
    (pages : Nat) (bookPrice : ℚ) (authorNames genreNames : List String) : Book :=
  { id := id, title := title, description := some bookDescr,
    page_count := some pages, language := "ru", price := some bookPrice,
    is_available := true,
    author_ids := authorNames.foldr (fun nm acc =>
      match db.authors.find? (fun a => a.name == nm) with
      | some a => a.id :: acc
      | none => acc) [],
    genre_ids := genreNames.foldr (fun nm acc =>
      match db.genres.find? (fun g => g.name == nm) with
      | some g => g.id :: acc
      | none => acc) [] }

/-- The three development seed books of `init_db` (books_data). -/
def seedBooks (db : Store) : List Book :=
  [mkSeedBook db 1 "War and Peace"
     "Epic novel about Russian society during the Napoleonic Wars"
     1300 (59999/100) ["Leo Tolstoy"] ["Classical Literature", "Novel"],
   mkSeedBook db 2 "Crime and Punishment"
     "Psychological novel about student Raskolnikov"
     671 (44999/100) ["Fyodor Dostoevsky"] ["Classical Literature", "Novel"],
   mkSeedBook db 3 "Eugene Onegin"
     "Novel in verse about noble society"
     384 (29999/100) ["Alexander Pushkin"] ["Classical Literature", "Poetry"]]

/-- src/bookstore/database.py, `init_db`, parameterized by the password
hashing function `hp` it calls for the fixed seed credentials.  Production
skips all seeding; a store that already has a User row is left untouched; the
admin superuser is always seeded, the regular user and the three books only in
the development profile.  The author and genre rows carry no environment
guard in the source. -/
def init_db (hp : String → String) (env : EnvType) (db : Store) : Store :=
  if env = .production then db
  else if db.users ≠ [] then db
  else
    let adminUser : User :=
      { id := 1, email := "admin@bookstore.com", username := "admin",
        full_name := some "Administrator",
        hashed_password := hp "admin123",
        is_active := true, is_superuser := true }
    let regularUser : User :=
      { id := 2, email := "user@example.com", username := "testuser",
        full_name := some "Test User",
        hashed_password := hp "password123",
        is_active := true, is_superuser := false }
    let newUsers :=
      [adminUser] ++ (if env = .development then [regularUser] else [])
    let db1 : Store :=
      { db with
        users := db.users ++ newUsers,
        authors := db.authors ++ seedAuthors,
        genres := db.genres ++ seedGenres }
    if env = .development then
      { db1 with books := db1.books ++ seedBooks db1 }
    else db1

/-- UTF-8 encoding of one scalar value, as a list of byte values. -/
def utf8EncodeChar (c : Char) : List Nat :=
  let n := c.toNat
  if n < 0x80 then [n]
  else if n < 0x800 then [0xC0 + n / 0x40, 0x80 + n % 0x40]
  else if n < 0x10000 then
    [0xE0 + n / 0x1000, 0x80 + (n / 0x40) % 0x40, 0x80 + n % 0x40]
  else
    [0xF0 + n / 0x40000, 0x80 + (n / 0x1000) % 0x40,
     0x80 + (n / 0x40) % 0x40, 0x80 + n % 0x40]

/-- `password.encode('utf-8')`: the UTF-8 byte sequence of a string. -/
def utf8Bytes (s : String) : List Nat :=
  s.data.foldr (fun c acc => utf8EncodeChar c ++ acc) []

/-- A bcrypt hash string, modelled as the salt it embeds together with the
digest bytes.  bcrypt itself is a third-party primitive outside the
repository; it is idealized here as an arbitrary digest function `D` over
(key bytes, salt), with the salt recoverable from the stored hash — exactly
the interface `gensalt`/`hashpw`/`checkpw` expose. -/
structure BcryptHash where
  salt : Nat
  digest : List Nat
deriving DecidableEq

/-- bcrypt's internal 72-byte key truncation. -/
def bcryptTruncate (bs : List Nat) : List Nat := bs.take 72

/-- `bcrypt.hashpw(key, salt)` for digest function `D`. -/
def hashpw (D : List Nat → Nat → List Nat) (key : List Nat) (salt : Nat) :
    BcryptHash :=
  ⟨salt, D (bcryptTruncate key) salt⟩

/-- `bcrypt.checkpw(key, stored)`: recompute the digest with the stored salt
and compare. -/
def checkpw (D : List Nat → Nat → List Nat) (key : List Nat)
    (stored : BcryptHash) : Bool :=
  decide (D (bcryptTruncate key) stored.salt = stored.digest)

/-- Python's `str.strip()`: drop whitespace from both ends. -/
def pyStrip (s : String) : String :=
  ⟨(((s.data.dropWhile Char.isWhitespace).reverse.dropWhile
      Char.isWhitespace).reverse)⟩

/-- src/bookstore/auth.py, `get_password_hash`: reject a password that is
empty after stripping, truncate the UTF-8 bytes to 72 when longer, then hash
with a salt (the source draws it from `bcrypt.gensalt()`; here the fresh salt
is the explicit argument). -/
def get_password_hash (D : List Nat → Nat → List Nat) (password : String)
    (salt : Nat) : Option BcryptHash :=
  if password = "" ∨ (pyStrip password).length = 0 then none
  else
    let password_bytes := utf8Bytes password
    let password_bytes :=
      if 72 < password_bytes.length then password_bytes.take 72
      else password_bytes
    some (hashpw D password_bytes salt)

/-- src/bookstore/auth.py, `verify_password`: delegate to `bcrypt.checkpw`. -/
def verify_password (D : List Nat → Nat → List Nat) (plain_password : String)
    (hashed_password : BcryptHash) : Bool :=
  checkpw D (utf8Bytes plain_password) hashed_password

end Bookstore

namespace Roadmap

/-- Row of the `nodes` table (src/roadmap-site/app/models/node.py, Node). -/
structure RNode where
  id : Nat
  title : String
  description : Option String := none
  node_type : String := "basic"
  parent_id : Option Nat := none
  github_url : Option String := none
deriving DecidableEq

/-- Serialized node with nested children
(src/app/schemas/node_schema.py, `dump_nested_tree`). -/
inductive NodeDict where
  | mk (id : Nat) (title : String) (description : Option String)
      (node_type : String) (parent_id : Option Nat)
      (github_url : Option String) (children : List NodeDict)

/-- Children of a node: rows whose `parent_id` references it. -/
def childrenOf (nodes : List RNode) (pid : Nat) : List RNode :=
  nodes.filter (fun n => n.parent_id == some pid)

/-- Recursive serialization of a node and its subtree, with a fuel bound
standing in for the source's unbounded recursion (the table size bounds the
depth of any acyclic tree). -/
def dumpNode (nodes : List RNode) : Nat → RNode → NodeDict
  | 0, n =>
    .mk n.id n.title n.description n.node_type n.parent_id n.github_url []
  | fuel + 1, n =>
    .mk n.id n.title n.description n.node_type n.parent_id n.github_url
      ((childrenOf nodes n.id).map (dumpNode nodes fuel))

/-- `Node.get_root_nodes`: rows without a parent. -/
def get_root_nodes (nodes : List RNode) : List RNode :=
  nodes.filter (fun n => n.parent_id == none)

/-- Observable situation of one GET /api/v1/roadmap request:
`tableReady` is whether `Node.query.first()` succeeds on entry (if not, the
handler runs `db.create_all()` and seeds); `nodes` is the current table;
`seeded` is the row set `create_bookstore_roadmap()` would insert;
`internalError` is whether anything later in the handler body (the queries or
the serialization) raises, landing in the handler's `except` clause. -/
structure RoadmapState where
  tableReady : Bool
  nodes : List RNode
  seeded : List RNode
  internalError : Bool
deriving Inhabited

/-- HTTP response of the roadmap endpoint: status code, the JSON body's
`success` flag, optional data payload and the message. -/
structure RoadmapResp where
  status : Nat
  success : Bool
  data : Option (List NodeDict)
  message : String

/-- Handler GET /api/v1/roadmap (src/app/routes/api.py, `get_roadmap`):
lazily create-and-seed when the table is not ready, re-seed once when no root
exists, return 200 with an empty list when still empty, 200 with the nested
trees otherwise — and on an exception inside the body, the `except` clause
returns HTTP 500 with `success: false`. -/
def get_roadmap (s : RoadmapState) : RoadmapResp :=
  if s.internalError then
    ⟨500, false, none, "Failed to retrieve roadmap"⟩
  else
    let nodes := if s.tableReady then s.nodes else s.nodes ++ s.seeded
    let nodes :=
      if get_root_nodes nodes = [] then nodes ++ s.seeded else nodes
    let roots := get_root_nodes nodes
    if roots = [] then
      ⟨200, true, some [], "No roadmap data found"⟩
    else
      ⟨200, true, some (roots.map (dumpNode nodes nodes.length)),
       "Roadmap retrieved successfully"⟩

end Roadmap

namespace LangDetect

/-- Membership of the `[а-яё]` class with IGNORECASE
(src/scripts/language_detector.py, `cyrillic_pattern`). -/
def isCyrillicChar (c : Char) : Bool :=
  (0x430 ≤ c.toNat && c.toNat ≤ 0x44F) || c.toNat == 0x451 ||
  (0x410 ≤ c.toNat && c.toNat ≤ 0x42F) || c.toNat == 0x401

/-- Membership of the `[a-z]` class with IGNORECASE (`latin_pattern`). -/
def isLatinChar (c : Char) : Bool :=
  (97 ≤ c.toNat && c.toNat ≤ 122) || (65 ≤ c.toNat && c.toNat ≤ 90)

/-- Number of Cyrillic letters in the text. -/
def countCyrillic (s : String) : Nat :=
  (s.data.filter isCyrillicChar).length

/-- Number of Latin letters in the text. -/
def countLatin (s : String) : Nat :=
  (s.data.filter isLatinChar).length

/-- `str.lower()` over the two alphabets the detector inspects. -/
def lowerChar (c : Char) : Char :=
  let n := c.toNat
  if 65 ≤ n ∧ n ≤ 90 then Char.ofNat (n + 32)
  else if 0x410 ≤ n ∧ n ≤ 0x42F then Char.ofNat (n + 0x20)
  else if n = 0x401 then Char.ofNat 0x451
  else c

/-- Lowercasing of a whole string. -/
def lowerStr (s : String) : String :=
  ⟨s.data.map lowerChar⟩

/-- `_extract_words` applied to cleaned text: the lowercased words, keeping
only those longer than two characters. -/
def extractWords (s : String) : List String :=
  ((lowerStr s).splitOn " ").filter (fun w => 2 < w.length)

/-- The Russian common-word dictionary (`russian_words`). -/
def russianWords : List String :=
  ["и", "в", "не", "на", "я", "быть", "он", "с", "что", "а", "по", "это",
   "она", "к", "но", "они", "мы", "как", "из", "у", "который", "то", "за",
   "свой", "её", "так", "вы", "сказать", "этот", "один", "ещё", "бы",
   "такой", "только", "себя", "своё", "какой", "когда", "уже", "для", "вот",
   "кто", "да", "говорить", "год", "знать", "мой", "до", "или", "если",
   "время", "рука", "нет", "самый", "ни", "стать", "большой", "даже",
   "другой", "наш", "свои", "ну", "под", "где", "дело", "есть", "сам",
   "раз", "чтобы", "два", "там", "чем", "глаз", "жизнь", "первый", "день",
   "тут", "во", "ничто", "потом", "очень", "со", "хотеть", "ли", "при",
   "голова", "надо", "без", "видеть", "идти", "теперь", "тоже", "стоять",
   "друг", "дом", "сейчас", "можно", "после", "слово", "здесь", "думать",
   "место", "спросить", "через", "работа", "три", "хорошо", "новый",
   "жить", "старый", "хороший", "каждый", "правда", "тогда", "просто",
   "нога", "сидеть", "понять", "иметь", "конечно", "делать", "вдруг",
   "над", "взять", "никто", "сделать"]

/-- The English common-word dictionary (`english_words`). -/
def englishWords : List String :=
  ["the", "be", "to", "of", "and", "a", "in", "that", "have", "i", "it",
   "for", "not", "on", "with", "he", "as", "you", "do", "at", "this", "but",
   "his", "by", "from", "they", "we", "say", "her", "she", "or", "an",
   "will", "my", "one", "all", "would", "there", "their", "what", "so",
   "up", "out", "if", "about", "who", "get", "which", "go", "me", "when",
   "make", "can", "like", "time", "no", "just", "him", "know", "take",
   "people", "into", "year", "your", "good", "some", "could", "them",
   "see", "other", "than", "then", "now", "look", "only", "come", "its",
   "over", "think", "also", "back", "after", "use", "two", "how", "our",
   "work", "first", "well", "way", "even", "new", "want", "because",
   "any", "these", "give", "day", "most", "us", "is", "water", "long",
   "very", "call", "man", "here", "old", "more", "been", "oil", "sit",
   "find", "down", "did", "made", "may", "part"]

/-- src/scripts/language_detector.py, `detect_text_language`, taken at the
point where `_clean_text` has already run (the regex-based stripping of code
blocks, URLs and punctuation precedes this stage and normalizes the text to
space-separated word characters).  Ratios and scores are exact rationals
standing for the float arithmetic. -/
def detect_text_language (cleanText : String) : String × ℚ :=
  if cleanText = "" then ("unknown", 0)
  else
    let cyrillic_chars := countCyrillic cleanText
    let latin_chars := countLatin cleanText
    let total_chars := cyrillic_chars + latin_chars
    if total_chars = 0 then ("unknown", 0)
    else
      let cyrillicShare : ℚ := (cyrillic_chars : ℚ) / (total_chars : ℚ)
      let latinShare : ℚ := (latin_chars : ℚ) / (total_chars : ℚ)
      let words := extractWords cleanText
      let russian_word_count :=
        (words.filter (fun w => russianWords.contains w)).length
      let english_word_count :=
        (words.filter (fun w => englishWords.contains w)).length
      let russian_score : ℚ :=
        cyrillicShare * (7/10) +
          ((russian_word_count : ℚ) / (max words.length 1 : ℚ)) * (3/10)
      let english_score : ℚ :=
        latinShare * (7/10) +
          ((english_word_count : ℚ) / (max words.length 1 : ℚ)) * (3/10)
      if 3/5 < russian_score then ("russian", russian_score)
      else if 3/5 < english_score then ("english", english_score)
      else if 3/10 < russian_score ∧ 3/10 < english_score then
        ("mixed", max russian_score english_score)
      else ("unknown", max russian_score english_score)

/-- The Russian score exactly as the specification words it: Cyrillic
character share weighted 0.7 plus matched-word fraction weighted 0.3. -/
def specRussianScore (t : String) : ℚ :=
  ((countCyrillic t : ℚ) / ((countCyrillic t + countLatin t : Nat) : ℚ)) * (7/10) +
    (((extractWords t).filter (fun w => russianWords.contains w)).length /
      (max (extractWords t).length 1 : ℚ)) * (3/10)

/-- The English score as the specification words it. -/
def specEnglishScore (t : String) : ℚ :=
  ((countLatin t : ℚ) / ((countCyrillic t + countLatin t : Nat) : ℚ)) * (7/10) +
    (((extractWords t).filter (fun w => englishWords.contains w)).length /
      (max (extractWords t).length 1 : ℚ)) * (3/10)

/-- The classification exactly as the specification words it: russian above
0.6, else english above 0.6, else mixed when both exceed 0.3, else unknown;
confidence is the winning score, or the larger of the two for
mixed/unknown. -/
def specClassify (t : String) : String × ℚ :=
  let rs := specRussianScore t
  let es := specEnglishScore t
  if 3/5 < rs then ("russian", rs)
  else if 3/5 < es then ("english", es)
  else if 3/10 < rs ∧ 3/10 < es then ("mixed", max rs es)
  else ("unknown", max rs es)

end LangDetect

open Bookstore Roadmap LangDetect

/-! Concrete instances used to instantiate the theorems below. -/

/-- A stored author row. -/
def c4Author : Author := { id := 1, name := "Leo Tolstoy" }

/-- A stored genre row. -/
def c4Genre : Genre := { id := 1, name := "Novel" }

/-- A stored book carrying ISBN 978-0000000001. -/
def c4ExistingBook : Book :=
  { id := 1, title := "War and Peace", isbn := some "978-0000000001",
    author_ids := [1], genre_ids := [1] }

/-- A store already holding that book. -/
def c4Db : Store :=
  { authors := [c4Author], genres := [c4Genre], books := [c4ExistingBook] }

/-- A superuser caller. -/
def c4Admin : User :=
  { id := 1, email := "admin@bookstore.com", username := "admin",
    is_superuser := true }

/-- A creation request reusing the stored ISBN with valid author/genre ids. -/
def c4Data : BookCreate :=
  { title := "War and Peace (reprint)", isbn := some "978-0000000001",
    author_ids := [1], genre_ids := [1] }

/-- An active non-superuser who has already reviewed book 7. -/
def c5User : User := { id := 2, email := "u@example.com", username := "reader" }

/-- A store holding book 7 and exactly one review of it by user 2. -/
def c5Db : Store :=
  { users := [c5User], books := [{ id := 7, title := "Some Book" }],
    reviews := [{ id := 1, user_id := 2, book_id := 7, rating := 5 }] }

/-- A second review attempt by the same user for the same book. -/
def c5Data : ReviewCreate := { rating := 4, book_id := 7 }

/-- A three-book catalog for the pagination instance. -/
def c6Db : Store :=
  { books := [{ id := 1, title := "A" }, { id := 2, title := "B" },
              { id := 3, title := "C" }] }

/-- An active, non-superuser caller with id 7. -/
def c9Caller : User :=
  { id := 7, email := "u7@example.com", username := "user7",
    is_active := true, is_superuser := false }

/-- A concrete digest function instantiating the idealized bcrypt model. -/
def c3Digest : List Nat → Nat → List Nat := fun bs s => bs ++ [s]

/-! Theorems. -/

theorem length_insertLe (le : α → α → Bool) (x : α) (l : List α) :
    (insertLe le x l).length = l.length + 1 := by
  induction l with
  | nil => rfl
  | cons y ys ih =>
    simp only [insertLe]
    split <;> simp [ih]

theorem length_sortByLe (le : α → α → Bool) (l : List α) :
    (sortByLe le l).length = l.length := by
  induction l with
  | nil => rfl
  | cons x xs ih => simp [sortByLe, length_insertLe, ih]

/-- C10: the review-listing operation applies its book_id and user_id filters
only when the supplied value is truthy, so a request with book_id=0 or
user_id=0 is treated as if the filter were absent and returns the full
unfiltered review list. -/
theorem c10_zero_id_filters_ignored (db : Store) :
    get_reviews (some 0) none db = db.reviews ∧
    get_reviews none (some 0) db = db.reviews ∧
    get_reviews (some 0) (some 0) db = db.reviews ∧
    get_reviews none none db = db.reviews := by
  refine ⟨?_, ?_, ?_, ?_⟩ <;> simp [get_reviews, pyTruthyInt]

/-- C9: in the users router's get-user and update-user operations the
self-or-superuser check precedes the row lookup, so an authenticated active
non-superuser asking about any foreign id — existing or not — receives
PermissionDenied (403), never NotFound. -/
theorem c9_permission_checked_before_lookup (db : Store) (uid : Nat)
    (data : UserUpdate) (cu : User) (hact : cu.is_active = true)
    (hsu : cu.is_superuser = false) (hne : cu.id ≠ uid) :
    get_user uid cu db = .error (403, "Not enough permissions") ∧
    update_user uid data cu db = (.error (403, "Not enough permissions"), db) := by
  have hperm : check_user_permissions cu uid = false := by
    simp [check_user_permissions, hsu, hne]
  constructor
  · simp [get_user, hact, hperm]
  · simp [update_user, hact, hperm]

/-- C9 witness: caller id 7 asking about the nonexistent id 42 in an empty
store is denied with 403, not 404. -/
theorem c9_witness :
    get_user 42 c9Caller emptyStore = .error (403, "Not enough permissions") ∧
    update_user 42 {} c9Caller emptyStore =
      (.error (403, "Not enough permissions"), emptyStore) :=
  c9_permission_checked_before_lookup emptyStore 42 {} c9Caller
    (by decide) (by decide) (by decide)

/-- C2 counterexample: when an internal error occurs during handling, the
roadmap endpoint responds with HTTP 500, not 200 — refuting the claim that
every request yields status 200. -/
theorem c2_internal_error_responds_500 :
    (get_roadmap ⟨true, [], [], true⟩).status = 500 ∧
    ¬ (get_roadmap ⟨true, [], [], true⟩).status = 200 := by
  exact ⟨rfl, by decide⟩

/-- C2 amended: the roadmap endpoint returns HTTP 200 with success true on
every request whose handling does not raise (including the empty-data case),
and HTTP 500 with success false in the body when an internal error occurs. -/
theorem c2_roadmap_status_amended (s : RoadmapState) :
    (get_roadmap s).status = (if s.internalError then 500 else 200) ∧
    (get_roadmap s).success = !s.internalError := by
  rcases s with ⟨tr, nodes, seeded, ie⟩
  cases ie with
  | true => exact ⟨rfl, rfl⟩
  | false =>
    constructor <;>
      (simp only [get_roadmap, Bool.false_eq_true, if_false, Bool.not_false]
       split <;> split <;> (try split) <;> rfl)

/-- C7 counterexample: initializing an empty store in the testing profile adds
the three author rows and the five genre rows as well — not only the
superuser, as the claim states for non-development non-production profiles. -/
theorem c7_testing_seeds_authors_and_genres :
    (init_db id .testing emptyStore).users.length = 1 ∧
    (init_db id .testing emptyStore).authors ≠ [] ∧
    (init_db id .testing emptyStore).genres ≠ [] ∧
    (init_db id .staging emptyStore).authors.length = 3 ∧
    (init_db id .staging emptyStore).genres.length = 5 := by
  refine ⟨?_, ?_, ?_, ?_, ?_⟩ <;> decide

/-- C7 amended: in production nothing is seeded; against a no-User store in
any non-production profile, the superuser plus the three authors and the five
genres are seeded, while the regular user and the three books are added only
in the development profile. -/
theorem c7_seeding_amended (hp : String → String) (env : EnvType) (db : Store)
    (h : db.users = []) :
    init_db hp .production db = db ∧
    (env ≠ .production →
      (init_db hp env db).users.length =
        db.users.length + (if env = .development then 2 else 1) ∧
      (init_db hp env db).authors.length = db.authors.length + 3 ∧
      (init_db hp env db).genres.length = db.genres.length + 5 ∧
      (init_db hp env db).books.length =
        db.books.length + (if env = .development then 3 else 0)) := by
  constructor
  · simp [init_db]
  · intro hne
    cases env <;> simp_all [init_db, seedAuthors, seedGenres, seedBooks, h]

/-- C7 witness: the amended statement at the staging profile over the empty
store. -/
theorem c7_witness :
    init_db id EnvType.production emptyStore = emptyStore ∧
    (EnvType.staging ≠ EnvType.production →
      (init_db id EnvType.staging emptyStore).users.length =
        emptyStore.users.length +
          (if EnvType.staging = EnvType.development then 2 else 1) ∧
      (init_db id EnvType.staging emptyStore).authors.length =
        emptyStore.authors.length + 3 ∧
      (init_db id EnvType.staging emptyStore).genres.length =
        emptyStore.genres.length + 5 ∧
      (init_db id EnvType.staging emptyStore).books.length =
        emptyStore.books.length +
          (if EnvType.staging = EnvType.development then 3 else 0)) :=
  c7_seeding_amended id EnvType.staging emptyStore rfl

/-- C4: a superuser create-book request with valid author and genre ids but
an ISBN already carried by a stored book is rejected with InvalidInput
(HTTP 400) and leaves the store — the original book included — unchanged. -/
theorem c4_duplicate_isbn_rejected (db : Store) (cu : User) (data : BookCreate)
    (i : String) (hsu : cu.is_superuser = true)
    (ha : (db.authors.filter (fun a => data.author_ids.contains a.id)).length =
      data.author_ids.length)
    (hg : (db.genres.filter (fun g => data.genre_ids.contains g.id)).length =
      data.genre_ids.length)
    (hisbn : data.isbn = some i) (hi : i ≠ "")
    (hdup : ∃ b ∈ db.books, b.isbn = some i) :
    create_book data cu db =
      (.error (400, "Book with this ISBN already exists"), db) := by
  obtain ⟨b, hmem, hb⟩ := hdup
  have hany : (db.books.any fun b => b.isbn == some i) = true :=
    List.any_eq_true.mpr ⟨b, hmem, by simp [hb]⟩
  have hpt : pyTruthyStr (some i) = true := by simp [pyTruthyStr, hi]
  dsimp only [create_book]
  rw [hsu, hisbn, ha, hg, hany, hpt]
  simp

/-- C4 witness: the duplicate-ISBN request against the concrete store holding
ISBN 978-0000000001. -/
theorem c4_witness :
    create_book c4Data c4Admin c4Db =
      (.error (400, "Book with this ISBN already exists"), c4Db) :=
  c4_duplicate_isbn_rejected c4Db c4Admin c4Data "978-0000000001"
    (by decide) (by decide) (by decide) rfl (by decide)
    ⟨c4ExistingBook, by decide, by decide⟩

/-- C5: the review-creation handler rejects a second review by the same user
for the same book with HTTP 400 and the message used by the source, leaving
the store unchanged so that exactly one review row for the pair remains; and
when the target book does not exist it fails with NotFound instead. -/
theorem c5_duplicate_review_rejected (db : Store) (cu : User)
    (data : ReviewCreate) (hact : cu.is_active = true) :
    (db.books.any (fun b => b.id == data.book_id) = true →
      1 ≤ countReviews db cu.id data.book_id →
      countReviews db cu.id data.book_id ≤ 1 →
      create_review data cu db =
        (.error (400, "You have already reviewed this book"), db) ∧
      countReviews (create_review data cu db).2 cu.id data.book_id = 1) ∧
    (db.books.any (fun b => b.id == data.book_id) = false →
      create_review data cu db = (.error (404, "Book not found"), db)) := by
  constructor
  · intro hb hex hinv
    have hone : countReviews db cu.id data.book_id = 1 := le_antisymm hinv hex
    have hpos : 0 <
        (db.reviews.filter
          (fun r => r.user_id == cu.id && r.book_id == data.book_id)).length := by
      unfold countReviews at hex; omega
    obtain ⟨r, hrmem⟩ := List.exists_mem_of_length_pos hpos
    have hr := List.mem_filter.mp hrmem
    have hany : db.reviews.any
        (fun r => r.user_id == cu.id && r.book_id == data.book_id) = true := by
      rw [List.any_eq_true]
      exact ⟨r, hr.1, hr.2⟩
    have heq : create_review data cu db =
        (.error (400, "You have already reviewed this book"), db) := by
      dsimp only [create_review]
      rw [hact, hb, hany]
      simp
    exact ⟨heq, by rw [heq]; exact hone⟩
  · intro hb
    dsimp only [create_review]
    rw [hact, hb]
    simp

/-- C5 witness: user 2's second review of book 7 against the concrete store
holding exactly one prior review. -/
theorem c5_witness :
    create_review c5Data c5User c5Db =
      (.error (400, "You have already reviewed this book"), c5Db) ∧
    countReviews (create_review c5Data c5User c5Db).2 c5User.id
      c5Data.book_id = 1 :=
  (c5_duplicate_review_rejected c5Db c5User c5Data (by decide)).1
    (by decide) (by decide) (by decide)

/-- C6: for valid paging parameters (page ≥ 1, 1 ≤ size ≤ 100) the book
listing returns exactly the slice of the filtered-and-sorted result sequence
at offset (page-1)*size of at most size items, so its length is
min(size, max(0, N - (page-1)*size)) for N matching books. -/
theorem c6_pagination_slice (db : Store) (params : BookSearchParams)
    (sort_by : BookSortBy) (sort_order : SortOrder) (page size : Nat)
    (hp : 1 ≤ page) (hs1 : 1 ≤ size) (hs2 : size ≤ 100) :
    get_books db params sort_by sort_order page size =
      .ok (((get_books_query db params sort_by sort_order).drop
        ((page - 1) * size)).take size) ∧
    ((((get_books_query db params sort_by sort_order).drop
        ((page - 1) * size)).take size).length : ℤ) =
      min (size : ℤ) (max 0
        (((get_books_query db params sort_by sort_order).length : ℤ) -
          ((page : ℤ) - 1) * (size : ℤ))) := by
  constructor
  · unfold get_books
    rw [if_neg (by omega : ¬(page < 1 ∨ size < 1 ∨ 100 < size))]
  · rw [List.length_take, List.length_drop]
    have hk : (((page - 1) * size : Nat) : ℤ) = ((page : ℤ) - 1) * size := by
      push_cast [Nat.cast_sub hp]
      ring
    rw [← hk]
    omega

/-- C6 witness: page 2 of size 2 over the three-book catalog. -/
theorem c6_witness :
    get_books c6Db {} BookSortBy.created_at SortOrder.desc 2 2 =
      .ok (((get_books_query c6Db {} BookSortBy.created_at
        SortOrder.desc).drop ((2 - 1) * 2)).take 2) ∧
    ((((get_books_query c6Db {} BookSortBy.created_at SortOrder.desc).drop
        ((2 - 1) * 2)).take 2).length : ℤ) =
      min ((2 : Nat) : ℤ) (max 0
        (((get_books_query c6Db {} BookSortBy.created_at
          SortOrder.desc).length : ℤ) - (((2 : Nat) : ℤ) - 1) * ((2 : Nat) : ℤ))) :=
  c6_pagination_slice c6Db {} BookSortBy.created_at SortOrder.desc 2 2
    (by decide) (by decide) (by decide)

theorem processRequests_module_instance (evs : List RequestEv) (s : AppState) :
    (processRequests s evs).metrics_middleware = s.metrics_middleware := by
  induction evs generalizing s with
  | nil => rfl
  | cons ev rest ih =>
    show (processRequests (processRequest s ev) rest).metrics_middleware = _
    rw [ih]
    unfold processRequest
    split <;> rfl

theorem processRequests_enabled (evs : List RequestEv) (s : AppState) :
    (processRequests s evs).metrics_enabled = s.metrics_enabled := by
  induction evs generalizing s with
  | nil => rfl
  | cons ev rest ih =>
    show (processRequests (processRequest s ev) rest).metrics_enabled = _
    rw [ih]
    unfold processRequest
    split <;> rfl

theorem processRequests_total (evs : List RequestEv) (s : AppState)
    (h : s.metrics_enabled = true) :
    (processRequests s evs).installed.requests_total =
      s.installed.requests_total + evs.length := by
  induction evs generalizing s with
  | nil => rfl
  | cons ev rest ih =>
    show (processRequests (processRequest s ev) rest).installed.requests_total = _
    have hpe : (processRequest s ev).metrics_enabled = true := by
      unfold processRequest
      split <;> exact h
    rw [ih _ hpe]
    unfold processRequest
    rw [if_pos h]
    simp [updateMetrics]
    omega

/-- C1: the /metrics endpoint reads the module-level `metrics_middleware`
object, which is a different `MetricsMiddleware` instance from the one the
request pipeline runs; so after any trace of N requests through the
middleware stack (metrics enabled throughout), the installed instance has
counted all N requests while the payload served by /metrics still reports
requests_total = 0, not N. -/
theorem c1_metrics_endpoint_reads_stale_instance (evs : List RequestEv) :
    metricsEndpoint (processRequests {} evs) =
      .ok (metrics_get_metrics ({} : Metrics)) ∧
    (metrics_get_metrics ({} : Metrics)).requests_total = 0 ∧
    (processRequests {} evs).installed.requests_total = evs.length := by
  refine ⟨?_, rfl, ?_⟩
  · unfold metricsEndpoint
    rw [processRequests_enabled, processRequests_module_instance]
    rfl
  · rw [processRequests_total evs {} rfl]
    simp

/-- C3: for every password that is non-empty after trimming and at most 72
UTF-8 bytes, hashing succeeds, the verify round-trip holds, and two calls
with distinct fresh salts yield two distinct hashes each of which still
verifies — for every digest function instantiating the bcrypt primitive. -/
theorem c3_password_hash_roundtrip (D : List Nat → Nat → List Nat)
    (P : String) (s1 s2 : Nat)
    (hP : ¬(P = "" ∨ (pyStrip P).length = 0))
    (hlen : (utf8Bytes P).length ≤ 72) (hs : s1 ≠ s2) :
    ∃ h1 h2, get_password_hash D P s1 = some h1 ∧
      get_password_hash D P s2 = some h2 ∧
      verify_password D P h1 = true ∧ verify_password D P h2 = true ∧
      h1 ≠ h2 := by
  have hnotlt : ¬ 72 < (utf8Bytes P).length := Nat.not_lt.mpr hlen
  refine ⟨hashpw D (utf8Bytes P) s1, hashpw D (utf8Bytes P) s2, ?_, ?_, ?_, ?_, ?_⟩
  · unfold get_password_hash
    rw [if_neg hP]
    dsimp only
    rw [if_neg hnotlt]
  · unfold get_password_hash
    rw [if_neg hP]
    dsimp only
    rw [if_neg hnotlt]
  · simp [verify_password, checkpw, hashpw]
  · simp [verify_password, checkpw, hashpw]
  · intro hEq
    exact hs (congrArg BcryptHash.salt hEq)

/-- C3 witness: the round-trip at password "password123" with the concrete
digest function and the distinct salts 0 and 1. -/
theorem c3_witness :
    ∃ h1 h2, get_password_hash c3Digest "password123" 0 = some h1 ∧
      get_password_hash c3Digest "password123" 1 = some h2 ∧
      verify_password c3Digest "password123" h1 = true ∧
      verify_password c3Digest "password123" h2 = true ∧
      h1 ≠ h2 :=
  c3_password_hash_roundtrip c3Digest "password123" 0 1
    (by decide) (by decide) (by decide)

/-- C8: wherever the cleaned text contains at least one Cyrillic or Latin
letter, the detector's result coincides with the specification's formula —
the 0.7-weighted character share plus 0.3-weighted dictionary-word fraction,
classified russian above 0.6, else english above 0.6, else mixed when both
exceed 0.3, else unknown, with the winning (or larger) score as
confidence. -/
theorem c8_detector_matches_spec (t : String)
    (h : countCyrillic t + countLatin t ≠ 0) :
    detect_text_language t = specClassify t := by
  have ht : ¬ t = "" := by
    intro he
    subst he
    exact h rfl
  unfold detect_text_language specClassify specRussianScore specEnglishScore
  rw [if_neg ht]
  dsimp only
  rw [if_neg h]

/-- C8 witness: the agreement at a concrete Russian sentence. -/
theorem c8_witness :
    detect_text_language "привет как дела" = specClassify "привет как дела" :=
  c8_detector_matches_spec "привет как дела" (by decide)
